import Mathlib

/-!
Verification development for `.github/scripts/check_dependencies.py`.

The script runs three sequential checks against a Python environment:
`check_dependency_conflicts` (wraps `pip check`), `check_critical_versions`
(wraps `pip show` per critical package) and `generate_dependency_report`
(wraps `pip list --format=json`).  We embed the script shallowly: the
external `pip` invocations become an explicit environment record, and each
Python function becomes a Lean function of that environment.  String
processing is carried out on `List Char` (via `String.data`) with
structurally recursive counterparts of the Python string methods, so that
every definition evaluates by kernel reduction.
-/

namespace CheckDeps

/-- Python's `str.split(sep)` for a single-character separator: splits at
every occurrence, keeping empty fields; the empty string yields `[[]]`. -/
def splitOnChar (c : Char) : List Char → List (List Char)
  | [] => [[]]
  | x :: xs =>
    match splitOnChar c xs with
    | [] => if x = c then [[], []] else [[x]]
    | h :: t => if x = c then [] :: h :: t else (x :: h) :: t

/-- Python's `str.startswith(p)`: `startsWithChars p s` holds when `p` is
an initial segment of `s`. -/
def startsWithChars : List Char → List Char → Bool
  | [], _ => true
  | _ :: _, [] => false
  | p :: ps, x :: xs => p == x && startsWithChars ps xs

/-- The whitespace characters Python's `str.strip()` removes (ASCII). -/
def isSpaceChar (c : Char) : Bool :=
  c == ' ' || c == '\t' || c == '\n' || c == '\r' || c == '\x0b' || c == '\x0c'

/-- Python's `str.strip()`: drop whitespace from both ends. -/
def trimChars (l : List Char) : List Char :=
  ((l.dropWhile isSpaceChar).reverse.dropWhile isSpaceChar).reverse

/-- Value of a string of decimal digits. -/
def digitsToNat (l : List Char) : Nat :=
  l.foldl (fun n c => n * 10 + (c.toNat - 48)) 0

/-- Parse a non-empty all-digit string as a natural number (one release
component of a version string); anything else fails. -/
def toNatChars (l : List Char) : Option Nat :=
  if l ≠ [] ∧ l.all Char.isDigit then some (digitsToNat l) else none

/-- Outcome of one `subprocess.run` invocation as observed by the script:
either the invocation itself raised an exception (`err`), or it completed
with a return code and captured standard output (`run`). -/
inductive ShowResult where
  | err : ShowResult
  | run (returncode : Nat) (stdout : String) : ShowResult
  deriving DecidableEq, Repr

/-- JSON values, used to model `json.loads` / `json.dump` for the report
step.  Numbers are modelled as integers; `pip list --format=json` emits
only strings inside objects, so no claim depends on float behaviour. -/
inductive Json where
  | null : Json
  | bool (b : Bool) : Json
  | num (n : Int) : Json
  | str (s : String) : Json
  | arr (elems : List Json) : Json
  | obj (fields : List (String × Json)) : Json

/-- Python `len()` applied to a decoded JSON value: defined for strings,
arrays and objects, raises `TypeError` (modelled as `none`) otherwise. -/
def pyLen : Json → Option Nat
  | .str s => some s.length
  | .arr l => some l.length
  | .obj f => some f.length
  | _ => none

/-- Modelled from the external `packaging.version` library (a third-party
dependency, not part of this repository): PEP 440 parsing restricted to
plain numeric release versions `N(.N)*`, the only shape occurring in the
script's table and in the spec's examples.  Any other string is treated as
a parse failure (`InvalidVersion`), which the script catches per package. -/
def parseVersion (vs : List Char) : Option (List Nat) :=
  (splitOnChar '.' vs).mapM toNatChars

/-- PEP 440 comparison of release segments: the shorter tuple is padded
with zeros, then the tuples are compared componentwise. -/
def relCmp : List Nat → List Nat → Ordering
  | [], bs => if bs.all (· == 0) then .eq else .lt
  | a :: as, [] => if a == 0 then relCmp as [] else .gt
  | a :: as, b :: bs =>
      if a < b then .lt else if b < a then .gt else relCmp as bs

/-- `a < b` on parsed release versions. -/
def verLt (a b : List Nat) : Bool := relCmp a b == .lt

/-- The script's `critical_packages` table, in insertion order:
package name, minimum version, optional maximum version. -/
def criticalPackages : List (String × String × Option String) :=
  [ ("torch", "1.10.0", none),
    ("numpy", "1.21.0", some "1.24.0"),
    ("opencv-python", "4.5.0", none),
    ("pillow", "8.0.0", none) ]

/-- First line of `pip show` output starting with `Version:`
(the script scans `result.stdout.split('\n')` and `break`s at the
first match). -/
def findVersionLine (out : String) : Option (List Char) :=
  (splitOnChar '\n' out.data).find? (fun l => startsWithChars "Version:".data l)

/-- `line.split(':')[1].strip()`: index 1 of the colon-split, stripped.
A missing index models the `IndexError` Python would raise. -/
def extractVersion (line : List Char) : Option (List Char) :=
  ((splitOnChar ':' line).get? 1).map trimChars

/-- How one iteration of the `check_critical_versions` loop classifies a
package.  `err` covers an exception from `subprocess.run` itself;
`parseError` is the same per-package handler reached from inside the
line-processing branch (`InvalidVersion`, `IndexError`). -/
inductive PkgStatus where
  | err : PkgStatus
  | notInstalled : PkgStatus
  | noVersionLine : PkgStatus
  | parseError : PkgStatus
  | belowMin : PkgStatus
  | aboveMax : PkgStatus
  | valid : PkgStatus
  deriving DecidableEq, Repr

/-- The `elif max_ver and ... > ...` / `else` part of the classification,
reached when the minimum bound is not violated (including Python's
truthiness test on `max_ver` and the exception on parse failure). -/
def checkMax (maxV : Option String) (v : List Nat) : PkgStatus :=
  match maxV with
  | none => .valid
  | some mx =>
    if mx.data ≠ [] then
      match parseVersion mx.data with
      | none => .parseError
      | some M => if verLt M v then .aboveMax else .valid
    else .valid

/-- Classification of an extracted version string against the bounds,
mirroring the `if min_ver and ... < ...` chain. -/
def classifyVersion (minV : String) (maxV : Option String) (vs : List Char) : PkgStatus :=
  match parseVersion vs with
  | none => .parseError
  | some v =>
    if minV.data ≠ [] then
      match parseVersion minV.data with
      | none => .parseError
      | some m => if verLt v m then .belowMin else checkMax maxV v
    else checkMax maxV v

/-- One iteration of the `check_critical_versions` loop: the `pip show`
outcome for one package, classified. -/
def checkPackage (minV : String) (maxV : Option String) (r : ShowResult) : PkgStatus :=
  match r with
  | .err => .err
  | .run rc out =>
    if rc ≠ 0 then .notInstalled
    else
      match findVersionLine out with
      | none => .noVersionLine
      | some line =>
        match extractVersion line with
        | none => .parseError
        | some vs => classifyVersion minV maxV vs

/-- Whether the iteration leaves `all_ok` untouched (`true`) or assigns
`all_ok = False` (`false`).  Only `NOT INSTALLED`, a below-minimum
version and a caught exception fail; exceeding the maximum only warns,
and a `pip show` output without a `Version:` line is passed over. -/
def statusOk : PkgStatus → Bool
  | .err => false
  | .notInstalled => false
  | .parseError => false
  | .belowMin => false
  | _ => true

/-- The version string the loop extracted for a package (empty when none
was); used only to reproduce the printed messages. -/
def shownVersion (r : ShowResult) : String :=
  match r with
  | .err => ""
  | .run _ out =>
    match findVersionLine out with
    | none => ""
    | some line => String.mk ((extractVersion line).getD [])

/-- The lines the loop body prints for one package (exception messages are
abbreviated to their fixed prefix). -/
def pkgMessages (name minV : String) (maxV : Option String) (r : ShowResult) : List String :=
  let vs := shownVersion r
  let mx := maxV.getD ""
  match checkPackage minV maxV r with
  | .err => ["Error checking " ++ name]
  | .notInstalled => [name ++ ": NOT INSTALLED"]
  | .noVersionLine => []
  | .parseError => ["Error checking " ++ name]
  | .belowMin => [name ++ ": " ++ vs ++ " is below minimum " ++ minV]
  | .aboveMax => [name ++ ": " ++ vs ++ " exceeds maximum " ++ mx]
  | .valid => [name ++ ": " ++ vs ++ " (valid)"]

/-- The whole `for package ... in critical_packages.items()` loop: folds
over the table accumulating the printed lines and the `all_ok` flag,
never aborting early. -/
def runVersionChecks (pkgs : List (String × String × Option String))
    (env : String → ShowResult) : List String × Bool :=
  pkgs.foldl
    (fun acc pb =>
      (acc.1 ++ pkgMessages pb.1 pb.2.1 pb.2.2 (env pb.1),
       acc.2 && statusOk (checkPackage pb.2.1 pb.2.2 (env pb.1))))
    ([], true)

/-- `check_critical_versions`: the boolean the function returns, given the
`pip show` outcome for each package name. -/
def check_critical_versions (env : String → ShowResult) : Bool :=
  (runVersionChecks criticalPackages env).2

/-- The per-package lines `check_critical_versions` prints, in order. -/
def check_critical_versions_output (env : String → ShowResult) : List String :=
  (runVersionChecks criticalPackages env).1

/-- `check_dependency_conflicts`: true iff `pip check` ran and returned
exit code 0; any exception is caught and yields false. -/
def check_dependency_conflicts (r : ShowResult) : Bool :=
  match r with
  | .err => false
  | .run rc _ => rc == 0

/-- `generate_dependency_report`, modelled on the state of
`dependency_report.json`.  `listResult` is the outcome of
`json.loads(subprocess.run(['pip','list','--format=json']).stdout)`:
`none` when the invocation raised or the output was not valid JSON,
`some j` for the decoded value.  `prior` is the file's content before the
run.  `len(packages)` is computed before the file is opened, so a
`TypeError` there also leaves the prior file untouched; on success the
file is truncated and rewritten with the serialization of `j`. -/
def generate_dependency_report (listResult : Option Json) (prior : Option Json) :
    Option Json :=
  match listResult with
  | none => prior
  | some j =>
    match pyLen j with
    | none => prior
    | some _ => some j

/-- The environment one run of the script observes: the `pip check`
outcome, the `pip show` outcome per package name, the decoded
`pip list --format=json` output, and the report file's prior content. -/
structure Env where
  pipCheck : ShowResult
  pipShow : String → ShowResult
  pipList : Option Json
  priorReport : Option Json

/-- Observable outcome of one run: the process exit code and the content
of `dependency_report.json` afterwards (`none` = no file). -/
structure RunResult where
  exitCode : Nat
  reportFile : Option Json

/-- The `if __name__ == "__main__"` block: runs the three steps
unconditionally, then exits 0 iff both boolean checks succeeded. -/
def script_main (env : Env) : RunResult :=
  let conflicts_ok := check_dependency_conflicts env.pipCheck
  let versions_ok := check_critical_versions env.pipShow
  let report := generate_dependency_report env.pipList env.priorReport
  { exitCode := if conflicts_ok && versions_ok then 0 else 1,
    reportFile := report }

/-- `pip show` for `r` succeeded (exit code 0) and the first `Version:`
line of its output extracts to the version string `vs`. -/
def reportsVersion (r : ShowResult) (vs : List Char) : Prop :=
  ∃ out, r = .run 0 out ∧
    ∃ line, findVersionLine out = some line ∧ extractVersion line = some vs

/-- A `pip show` environment in which all four critical packages are
installed with versions inside their bounds. -/
def envAllGood : String → ShowResult := fun name =>
  if name = "torch" then .run 0 "Name: torch\nVersion: 1.12.0"
  else if name = "numpy" then .run 0 "Name: numpy\nVersion: 1.22.0"
  else if name = "opencv-python" then .run 0 "Name: opencv-python\nVersion: 4.6.0"
  else if name = "pillow" then .run 0 "Name: pillow\nVersion: 9.0.0"
  else .run 1 ""

/-- Like `envAllGood`, but numpy's installed version exceeds its maximum
bound ("1.25.0" > "1.24.0"). -/
def envNumpyHigh : String → ShowResult := fun name =>
  if name = "numpy" then .run 0 "Name: numpy\nVersion: 1.25.0"
  else envAllGood name

/-- Like `envAllGood`, but torch's installed version is below its minimum
bound ("1.9.0" < "1.10.0"). -/
def envTorchLow : String → ShowResult := fun name =>
  if name = "torch" then .run 0 "Name: torch\nVersion: 1.9.0"
  else envAllGood name

/-- Like `envAllGood`, but `pip show opencv-python` exits nonzero
(package not installed). -/
def envOpencvMissing : String → ShowResult := fun name =>
  if name = "opencv-python" then .run 1 ""
  else envAllGood name

/-- The spec's scenario: no conflicts, torch 1.12.0, numpy 1.22.0,
opencv-python missing, pillow 9.0.0. -/
def envScenario : Env :=
  { pipCheck := .run 0 "", pipShow := envOpencvMissing,
    pipList := none, priorReport := none }

/-- A run in which `pip list` (or decoding its output) fails and no report
file existed beforehand. -/
def envNoList : Env :=
  { pipCheck := .run 0 "", pipShow := envAllGood,
    pipList := none, priorReport := none }

/-- A decoded `pip list --format=json` value with two package records. -/
def listedPackages : List Json :=
  [ .obj [("name", .str "torch"), ("version", .str "1.12.0")],
    .obj [("name", .str "numpy"), ("version", .str "1.22.0")] ]

/-- A run in which `pip list` succeeds with `listedPackages` while both
boolean checks fail. -/
def envListed : Env :=
  { pipCheck := .err, pipShow := envOpencvMissing,
    pipList := some (.arr listedPackages), priorReport := none }

/-- `statusOk` holds exactly on the three non-failing classifications. -/
theorem statusOk_true_iff (s : PkgStatus) :
    statusOk s = true ↔ (s = .noVersionLine ∨ s = .aboveMax ∨ s = .valid) := by
  cases s <;> simp [statusOk]

/-- The boolean returned by the version check is the conjunction of the
per-package `statusOk` values over the whole table. -/
theorem check_critical_versions_true_iff (env : String → ShowResult) :
    check_critical_versions env = true ↔
      ∀ pb ∈ criticalPackages,
        statusOk (checkPackage pb.2.1 pb.2.2 (env pb.1)) = true := by
  simp [check_critical_versions, runVersionChecks, criticalPackages,
    List.forall_mem_cons, Bool.and_eq_true]
  tauto

/-- The lines printed by the version check, package by package, in table
order. -/
theorem check_critical_versions_output_eq (env : String → ShowResult) :
    check_critical_versions_output env =
      pkgMessages "torch" "1.10.0" none (env "torch") ++
        (pkgMessages "numpy" "1.21.0" (some "1.24.0") (env "numpy") ++
          (pkgMessages "opencv-python" "4.5.0" none (env "opencv-python") ++
            pkgMessages "pillow" "8.0.0" none (env "pillow"))) := by
  simp [check_critical_versions_output, runVersionChecks, criticalPackages]

/-- The empty string is not a valid version. -/
theorem parseVersion_nil : parseVersion [] = none := by decide

/-- A string that parses as a version is non-empty. -/
theorem ne_nil_of_parseVersion {s : List Char} {v : List Nat}
    (h : parseVersion s = some v) : s ≠ [] := by
  intro hnil
  rw [hnil, parseVersion_nil] at h
  cases h

/-- When `pip show` reports a version string, the loop classifies the
package by `classifyVersion` on that string. -/
theorem checkPackage_reports (minV : String) (maxS : Option String)
    (r : ShowResult) (vs : List Char) (h : reportsVersion r vs) :
    checkPackage minV maxS r = classifyVersion minV maxS vs := by
  obtain ⟨out, rfl, line, hf, he⟩ := h
  simp [checkPackage, hf, he]

/-- When `pip show` reports a version string, that string is the one that
appears in the printed messages. -/
theorem shownVersion_reports (r : ShowResult) (vs : List Char)
    (h : reportsVersion r vs) : shownVersion r = String.mk vs := by
  obtain ⟨out, rfl, line, hf, he⟩ := h
  simp [shownVersion, hf, he]

/-- Classification of a parsed version against a parsed minimum bound. -/
theorem classifyVersion_of_bounds (minV : String) (maxS : Option String)
    (vs : List Char) (v m : List Nat) (hv : parseVersion vs = some v)
    (hm : parseVersion minV.data = some m) :
    classifyVersion minV maxS vs =
      if verLt v m then .belowMin else checkMax maxS v := by
  have hne := ne_nil_of_parseVersion hm
  simp [classifyVersion, hv, hne, hm]

/-- A classification that is neither a caught error, a missing package
nor a below-minimum version leaves `all_ok` untouched. -/
theorem statusOk_of_not_bad (s : PkgStatus) (h1 : s ≠ .err)
    (h2 : s ≠ .notInstalled) (h3 : s ≠ .parseError) (h4 : s ≠ .belowMin) :
    statusOk s = true := by
  cases s <;> simp_all [statusOk]

/-- C2: if every critical package in the table is installed, reports a
version line, and that version is at or above the package's minimum and
at or below its maximum (or the package has no maximum), the version
check returns true. -/
theorem versions_ok_of_all_within (env : String → ShowResult)
    (h : ∀ name minV maxS, (name, minV, maxS) ∈ criticalPackages →
      ∃ vs v m, reportsVersion (env name) vs ∧ parseVersion vs = some v ∧
        parseVersion minV.data = some m ∧ verLt v m = false ∧
        (maxS = none ∨ ∃ mx M, maxS = some mx ∧ parseVersion mx.data = some M ∧
          verLt M v = false)) :
    check_critical_versions env = true := by
  rw [check_critical_versions_true_iff]
  rintro ⟨name, minV, maxS⟩ hmem
  obtain ⟨vs, v, m, hrep, hv, hm, hge, hmax⟩ := h name minV maxS hmem
  simp only
  rw [checkPackage_reports _ _ _ _ hrep, classifyVersion_of_bounds _ _ _ _ _ hv hm]
  simp only [hge, if_false, Bool.false_eq_true]
  rcases hmax with rfl | ⟨mx, M, rfl, hM, hMge⟩
  · rfl
  · have hne := ne_nil_of_parseVersion hM
    simp [checkMax, hne, hM, hMge, statusOk]

/-- C2 witness: all four packages installed within bounds. -/
theorem versions_ok_of_all_within_witness :
    check_critical_versions envAllGood = true :=
  versions_ok_of_all_within envAllGood (by
    intro name minV maxS hmem
    simp only [criticalPackages, List.mem_cons, List.not_mem_nil, or_false,
      Prod.mk.injEq] at hmem
    rcases hmem with ⟨rfl, rfl, rfl⟩ | ⟨rfl, rfl, rfl⟩ | ⟨rfl, rfl, rfl⟩ | ⟨rfl, rfl, rfl⟩
    · exact ⟨"1.12.0".data, [1, 12, 0], [1, 10, 0],
        ⟨"Name: torch\nVersion: 1.12.0", by decide,
          "Version: 1.12.0".data, by decide, by decide⟩,
        by decide, by decide, by decide, Or.inl rfl⟩
    · exact ⟨"1.22.0".data, [1, 22, 0], [1, 21, 0],
        ⟨"Name: numpy\nVersion: 1.22.0", by decide,
          "Version: 1.22.0".data, by decide, by decide⟩,
        by decide, by decide, by decide,
        Or.inr ⟨"1.24.0", [1, 24, 0], rfl, by decide, by decide⟩⟩
    · exact ⟨"4.6.0".data, [4, 6, 0], [4, 5, 0],
        ⟨"Name: opencv-python\nVersion: 4.6.0", by decide,
          "Version: 4.6.0".data, by decide, by decide⟩,
        by decide, by decide, by decide, Or.inl rfl⟩
    · exact ⟨"9.0.0".data, [9, 0, 0], [8, 0, 0],
        ⟨"Name: pillow\nVersion: 9.0.0", by decide,
          "Version: 9.0.0".data, by decide, by decide⟩,
        by decide, by decide, by decide, Or.inl rfl⟩)

/-- C3: a critical package whose reported version exceeds its defined
maximum bound is classified `aboveMax`, which prints the exceeds-maximum
warning but does not fail the check; provided no package is missing,
below its minimum or errored, the check still returns true. -/
theorem above_max_only_warns (env : String → ShowResult)
    (name minV mx : String) (maxS : Option String) (vs : List Char) (v M : List Nat)
    (hmem : (name, minV, maxS) ∈ criticalPackages)
    (hmx : maxS = some mx)
    (hM : parseVersion mx.data = some M)
    (hrep : reportsVersion (env name) vs)
    (hv : parseVersion vs = some v)
    (hgt : verLt M v = true)
    (hok : ∀ qn qmin qmax, (qn, qmin, qmax) ∈ criticalPackages →
      checkPackage qmin qmax (env qn) ≠ .err ∧
      checkPackage qmin qmax (env qn) ≠ .notInstalled ∧
      checkPackage qmin qmax (env qn) ≠ .parseError ∧
      checkPackage qmin qmax (env qn) ≠ .belowMin) :
    checkPackage minV maxS (env name) = .aboveMax ∧
    pkgMessages name minV maxS (env name) =
      [name ++ ": " ++ String.mk vs ++ " exceeds maximum " ++ mx] ∧
    statusOk (checkPackage minV maxS (env name)) = true ∧
    check_critical_versions env = true := by
  subst hmx
  obtain ⟨_, _, hnpe, hnbm⟩ := hok name minV (some mx) hmem
  have hne := ne_nil_of_parseVersion hM
  have hcp := checkPackage_reports minV (some mx) (env name) vs hrep
  have hstatus : checkPackage minV (some mx) (env name) = .aboveMax := by
    rw [hcp] at hnpe hnbm ⊢
    by_cases hmin : minV.data = []
    · simp [classifyVersion, hv, hmin, checkMax, hne, hM, hgt]
    · cases hpm : parseVersion minV.data with
      | none => exact absurd (by simp [classifyVersion, hv, hmin, hpm]) hnpe
      | some m =>
        cases hvm : verLt v m with
        | true => exact absurd (by simp [classifyVersion, hv, hmin, hpm, hvm]) hnbm
        | false => simp [classifyVersion, hv, hmin, hpm, hvm, checkMax, hne, hM, hgt]
  refine ⟨hstatus, ?_, by rw [hstatus]; rfl, ?_⟩
  · simp [pkgMessages, hstatus, shownVersion_reports _ _ hrep]
  · rw [check_critical_versions_true_iff]
    rintro ⟨qn, qmin, qmax⟩ hq
    obtain ⟨h1, h2, h3, h4⟩ := hok qn qmin qmax hq
    exact statusOk_of_not_bad _ h1 h2 h3 h4

/-- C3 witness: numpy 1.25.0 exceeds its 1.24.0 ceiling while the other
packages are fine. -/
theorem above_max_only_warns_witness :
    checkPackage "1.21.0" (some "1.24.0") (envNumpyHigh "numpy") = .aboveMax ∧
    pkgMessages "numpy" "1.21.0" (some "1.24.0") (envNumpyHigh "numpy") =
      ["numpy" ++ ": " ++ String.mk "1.25.0".data ++ " exceeds maximum " ++ "1.24.0"] ∧
    statusOk (checkPackage "1.21.0" (some "1.24.0") (envNumpyHigh "numpy")) = true ∧
    check_critical_versions envNumpyHigh = true :=
  above_max_only_warns envNumpyHigh "numpy" "1.21.0" "1.24.0" (some "1.24.0")
    "1.25.0".data [1, 25, 0] [1, 24, 0] (by decide) rfl (by decide)
    ⟨"Name: numpy\nVersion: 1.25.0", by decide, "Version: 1.25.0".data, by decide, by decide⟩
    (by decide) (by decide)
    (by
      intro qn qmin qmax hq
      simp only [criticalPackages, List.mem_cons, List.not_mem_nil, or_false,
        Prod.mk.injEq] at hq
      rcases hq with ⟨rfl, rfl, rfl⟩ | ⟨rfl, rfl, rfl⟩ | ⟨rfl, rfl, rfl⟩ | ⟨rfl, rfl, rfl⟩ <;>
        exact ⟨by decide, by decide, by decide, by decide⟩)

/-- C4: one critical package below its minimum bound makes the version
check return false, whatever the other packages report. -/
theorem below_min_fails (env : String → ShowResult) (name minV : String)
    (maxS : Option String) (vs : List Char) (v m : List Nat)
    (hmem : (name, minV, maxS) ∈ criticalPackages)
    (hrep : reportsVersion (env name) vs)
    (hv : parseVersion vs = some v)
    (hm : parseVersion minV.data = some m)
    (hlt : verLt v m = true) :
    checkPackage minV maxS (env name) = .belowMin ∧
    check_critical_versions env = false := by
  have hstatus : checkPackage minV maxS (env name) = .belowMin := by
    rw [checkPackage_reports _ _ _ _ hrep, classifyVersion_of_bounds _ _ _ _ _ hv hm]
    simp [hlt]
  refine ⟨hstatus, ?_⟩
  cases hchk : check_critical_versions env with
  | false => rfl
  | true =>
    have htrue := (check_critical_versions_true_iff env).mp hchk (name, minV, maxS) hmem
    simp only at htrue
    rw [hstatus] at htrue
    simp [statusOk] at htrue

/-- C4 witness: torch 1.9.0 is below its 1.10.0 floor while every other
package is installed within bounds (so the failure is not undone). -/
theorem below_min_fails_witness :
    checkPackage "1.10.0" none (envTorchLow "torch") = .belowMin ∧
    check_critical_versions envTorchLow = false :=
  below_min_fails envTorchLow "torch" "1.10.0" none "1.9.0".data [1, 9, 0] [1, 10, 0]
    (by decide)
    ⟨"Name: torch\nVersion: 1.9.0", by decide, "Version: 1.9.0".data, by decide, by decide⟩
    (by decide) (by decide) (by decide)

/-- C5: a critical package whose `pip show` fails (not installed) or
raises is given a printed message, makes the check return false, and
every other package of the table is still processed: its own messages
appear in the overall output. -/
theorem missing_or_error_fails (env : String → ShowResult) (name minV : String)
    (maxS : Option String)
    (hmem : (name, minV, maxS) ∈ criticalPackages)
    (hbad : env name = .err ∨ ∃ rc out, env name = .run rc out ∧ rc ≠ 0) :
    check_critical_versions env = false ∧
    pkgMessages name minV maxS (env name) ≠ [] ∧
    (∀ qn qmin qmax, (qn, qmin, qmax) ∈ criticalPackages →
      ∃ l r, check_critical_versions_output env =
        l ++ pkgMessages qn qmin qmax (env qn) ++ r) := by
  have hstatus : checkPackage minV maxS (env name) = .err ∨
      checkPackage minV maxS (env name) = .notInstalled := by
    rcases hbad with h | ⟨rc, out, h, hrc⟩
    · exact Or.inl (by rw [h]; rfl)
    · exact Or.inr (by rw [h]; simp [checkPackage, hrc])
  refine ⟨?_, ?_, ?_⟩
  · cases hchk : check_critical_versions env with
    | false => rfl
    | true =>
      have htrue := (check_critical_versions_true_iff env).mp hchk (name, minV, maxS) hmem
      simp only at htrue
      rcases hstatus with h | h <;> rw [h] at htrue <;> simp [statusOk] at htrue
  · rcases hstatus with h | h <;> simp [pkgMessages, h]
  · intro qn qmin qmax hq
    rw [check_critical_versions_output_eq]
    simp only [criticalPackages, List.mem_cons, List.not_mem_nil, or_false,
      Prod.mk.injEq] at hq
    rcases hq with ⟨rfl, rfl, rfl⟩ | ⟨rfl, rfl, rfl⟩ | ⟨rfl, rfl, rfl⟩ | ⟨rfl, rfl, rfl⟩
    · exact ⟨[], pkgMessages "numpy" "1.21.0" (some "1.24.0") (env "numpy") ++
        (pkgMessages "opencv-python" "4.5.0" none (env "opencv-python") ++
          pkgMessages "pillow" "8.0.0" none (env "pillow")), by simp⟩
    · exact ⟨pkgMessages "torch" "1.10.0" none (env "torch"),
        pkgMessages "opencv-python" "4.5.0" none (env "opencv-python") ++
          pkgMessages "pillow" "8.0.0" none (env "pillow"), by simp [List.append_assoc]⟩
    · exact ⟨pkgMessages "torch" "1.10.0" none (env "torch") ++
        pkgMessages "numpy" "1.21.0" (some "1.24.0") (env "numpy"),
        pkgMessages "pillow" "8.0.0" none (env "pillow"), by simp [List.append_assoc]⟩
    · exact ⟨pkgMessages "torch" "1.10.0" none (env "torch") ++
        (pkgMessages "numpy" "1.21.0" (some "1.24.0") (env "numpy") ++
          pkgMessages "opencv-python" "4.5.0" none (env "opencv-python")), [],
        by simp [List.append_assoc]⟩

/-- C5 witness: opencv-python not installed, other packages fine. -/
theorem missing_or_error_fails_witness :
    check_critical_versions envOpencvMissing = false ∧
    pkgMessages "opencv-python" "4.5.0" none (envOpencvMissing "opencv-python") ≠ [] :=
  ⟨(missing_or_error_fails envOpencvMissing "opencv-python" "4.5.0" none (by decide)
      (Or.inr ⟨1, "", by decide, by decide⟩)).1,
    (missing_or_error_fails envOpencvMissing "opencv-python" "4.5.0" none (by decide)
      (Or.inr ⟨1, "", by decide, by decide⟩)).2.1⟩

/-- C1: the process exit code is 0 iff both the conflict check and the
version check return true; it is 1 in every other case, and the
report-generation step (the `pip list` outcome and the prior report file)
never affects the exit status. -/
theorem exit_code_iff_both_checks (env : Env) :
    ((script_main env).exitCode = 0 ↔
      (check_dependency_conflicts env.pipCheck = true ∧
        check_critical_versions env.pipShow = true)) ∧
    ((script_main env).exitCode = 0 ∨ (script_main env).exitCode = 1) ∧
    (∀ l p, (script_main { env with pipList := l, priorReport := p }).exitCode =
        (script_main env).exitCode) := by
  cases hc : check_dependency_conflicts env.pipCheck <;>
    cases hv : check_critical_versions env.pipShow <;>
      simp [script_main, hc, hv]

/-- C6: the conflict check returns true iff `pip check` completed with
exit code 0; a conflicting environment (nonzero exit) or an exception
during the invocation yields false, and the function is total, so no
fault propagates. -/
theorem conflict_check_iff_exit_zero (r : ShowResult) :
    (check_dependency_conflicts r = true ↔ ∃ out, r = .run 0 out) ∧
    check_dependency_conflicts .err = false := by
  refine ⟨?_, rfl⟩
  cases r <;> simp [check_dependency_conflicts]

/-- C7: the version comparison applied by the check is numeric PEP-440
ordering, not lexicographic string ordering: "1.9.0" < "1.10.0" <
"2.0.0" under `parseVersion`/`verLt` (while String ordering puts
"1.10.0" before "1.9.0"), and the check classifies installed "1.9.0"
below minimum "1.10.0" but accepts "1.10.0". -/
theorem version_ordering_numeric :
    parseVersion "1.9.0".data = some [1, 9, 0] ∧
    parseVersion "1.10.0".data = some [1, 10, 0] ∧
    parseVersion "2.0.0".data = some [2, 0, 0] ∧
    verLt [1, 9, 0] [1, 10, 0] = true ∧
    verLt [1, 10, 0] [2, 0, 0] = true ∧
    ("1.10.0".data < "1.9.0".data) ∧
    checkPackage "1.10.0" none (.run 0 "Version: 1.9.0") = .belowMin ∧
    checkPackage "1.10.0" none (.run 0 "Version: 1.10.0") = .valid := by
  decide

/-- C8 counterexample: in the run `envNoList` the `pip list` query fails
(its `except` branch is taken before the file is opened), so no report
file is written at all — refuting the claim that every run writes
`dependency_report.json` fresh. -/
theorem report_not_written_on_list_failure :
    (script_main envNoList).reportFile = none := rfl

/-- C8 amended: on every run in which the `pip list` query succeeds and
its output decodes to a JSON array, the report step overwrites
`dependency_report.json` with exactly that array, whose element count is
the installed-package count — regardless of the outcomes of the conflict
check and the version check.  (When the query or decode fails, the
exception is caught and the prior file is left untouched.) -/
theorem report_written_when_list_decodes (env : Env) (js : List Json)
    (h : env.pipList = some (.arr js)) :
    (script_main env).reportFile = some (.arr js) ∧
    pyLen (.arr js) = some js.length ∧
    (∀ c s, (script_main { env with pipCheck := c, pipShow := s }).reportFile =
        some (.arr js)) := by
  refine ⟨?_, rfl, fun c s => ?_⟩ <;>
    simp [script_main, generate_dependency_report, h, pyLen]

/-- C8 witness: a run whose two boolean checks both fail still writes the
decoded two-record package list. -/
theorem report_written_when_list_decodes_witness :
    (script_main envListed).reportFile = some (.arr listedPackages) ∧
    pyLen (.arr listedPackages) = some listedPackages.length :=
  ⟨(report_written_when_list_decodes envListed listedPackages rfl).1,
    (report_written_when_list_decodes envListed listedPackages rfl).2.1⟩

/-- C9: in the spec's scenario (no conflicts; torch 1.12.0, numpy 1.22.0
and pillow 9.0.0 installed; opencv-python missing) the conflict check
passes, the version check returns false, and the process exits with
code 1. -/
theorem scenario_missing_opencv :
    check_dependency_conflicts envScenario.pipCheck = true ∧
    check_critical_versions envScenario.pipShow = false ∧
    (script_main envScenario).exitCode = 1 := by
  decide

/-- C10: when `pip show` for a package succeeds but its output has no
line starting with `Version:`, the loop body falls through: the package
is classified `noVersionLine`, prints nothing, and does not mark the
overall result false — an outcome beyond the spec's four-way
classification. -/
theorem no_version_line_passes (out : String) (name minV : String)
    (maxS : Option String)
    (h : ∀ l ∈ splitOnChar '\n' out.data, startsWithChars "Version:".data l = false) :
    checkPackage minV maxS (.run 0 out) = .noVersionLine ∧
    statusOk (checkPackage minV maxS (.run 0 out)) = true ∧
    pkgMessages name minV maxS (.run 0 out) = [] := by
  have hf : findVersionLine out = none := by
    rw [findVersionLine, List.find?_eq_none]
    intro l hl
    simp [h l hl]
  have hcp : checkPackage minV maxS (.run 0 out) = .noVersionLine := by
    simp [checkPackage, hf]
  exact ⟨hcp, by rw [hcp]; rfl, by simp [pkgMessages, hcp]⟩

/-- C10 witness: a `pip show` output with name and summary lines but no
version line. -/
theorem no_version_line_passes_witness :
    checkPackage "4.5.0" none (.run 0 "Name: opencv-python\nSummary: CV") =
      .noVersionLine ∧
    statusOk (checkPackage "4.5.0" none
      (.run 0 "Name: opencv-python\nSummary: CV")) = true ∧
    pkgMessages "opencv-python" "4.5.0" none
      (.run 0 "Name: opencv-python\nSummary: CV") = [] :=
  no_version_line_passes "Name: opencv-python\nSummary: CV" "opencv-python" "4.5.0"
    none (by decide)

end CheckDeps
